import Mathlib

/-!
Shallow embedding of pywFM (`pywFM/__init__.py`): a thin Python wrapper
that invokes the external `libFM` binary.  The embedding covers the `FM`
constructor (`__init__`), the argument list built by `FM.run`, the
temp-file lifecycle of `run` as an explicit event trace, and the two
output-file parsers of `run` (predictions file and sectioned model-dump
file).

Python floats are modelled as rationals: the wrapper does no float
arithmetic, it only parses decimal literals out of text files and stores
them.  Parsed values are produced with `mkRat` (numerator over a power of
ten) so that every definition evaluates by kernel reduction.  Python
strings are modelled as `String`, with the string primitives the source
uses (`startswith`, `in`, `split`, `splitlines`) implemented structurally
over `String.data`.
-/

namespace PyWFM

/- ------------------------------------------------------------------ -/
/- String primitives (structural models of the Python operations used) -/
/- ------------------------------------------------------------------ -/

/-- Does the first list begin with the second one?  Model of Python
`str.startswith` on character lists. -/
def beginsWith : List Char → List Char → Bool
  | _, [] => true
  | [], _ :: _ => false
  | c :: cs, d :: ds => c == d && beginsWith cs ds

/-- Does `sub` occur as a contiguous sublist?  Model of Python
`sub in line` on character lists. -/
def hasSub (sub : List Char) : List Char → Bool
  | [] => sub.isEmpty
  | c :: cs => beginsWith (c :: cs) sub || hasSub sub cs

/-- Split a character list on every occurrence of `sep`, keeping empty
pieces.  Model of Python `str.split(sep)` for a one-character separator:
`"".split(sep) = [""]`, and consecutive separators yield empty pieces. -/
def splitOnChar (sep : Char) : List Char → List (List Char)
  | [] => [[]]
  | c :: cs =>
    let r := splitOnChar sep cs
    if c == sep then [] :: r
    else match r with
      | [] => [[c]]
      | h :: t => (c :: h) :: t

/-- Python `s.startswith(pre)`. -/
def pyStartsWith (s pre : String) : Bool :=
  beginsWith s.data pre.data

/-- Python `sub in line` substring containment. -/
def pyContains (line sub : String) : Bool :=
  hasSub sub.data line.data

/-- Python `s.split(sep)` for a one-character separator. -/
def pySplit (sep : Char) (s : String) : List String :=
  (splitOnChar sep s.data).map (fun l => String.mk l)

/-- Python `s.splitlines()` restricted to the `\n` separator (the only
one occurring in libFM output files): split on `\n`, without a trailing
empty piece. -/
def pySplitlines (s : String) : List String :=
  let parts := splitOnChar '\n' s.data
  (if parts.getLast? = some [] then parts.dropLast else parts).map (fun l => String.mk l)

/- ------------------------------------------------------------------ -/
/- Python float() on decimal literals                                  -/
/- ------------------------------------------------------------------ -/

/-- Value of a run of decimal digit characters, most significant first. -/
def digitsToNat (l : List Char) : ℕ :=
  l.foldl (fun acc c => 10 * acc + (c.toNat - 48)) 0

/-- Parse an unsigned decimal literal: digits optionally followed by a
dot and further digits, with at least one digit overall.  This is the
fragment of Python `float()` exercised by libFM files; the value is the
mantissa over the matching power of ten. -/
def parseUnsigned (l : List Char) : Option ℚ :=
  let intPart := l.takeWhile Char.isDigit
  let rest := l.dropWhile Char.isDigit
  match rest with
  | [] => if intPart.isEmpty then none else some (mkRat (digitsToNat intPart) 1)
  | '.' :: frac =>
      if frac.all Char.isDigit && !(intPart.isEmpty && frac.isEmpty) then
        some (mkRat (digitsToNat intPart * 10 ^ frac.length + digitsToNat frac)
          (10 ^ frac.length))
      else none
  | _ => none

/-- Python `float(s)` on the decimal fragment: optional sign then an
unsigned decimal literal; `none` models the `ValueError` raised on
malformed input. -/
def parsePyFloat (s : String) : Option ℚ :=
  match s.data with
  | '-' :: rest => (parseUnsigned rest).map (fun q => -q)
  | '+' :: rest => parseUnsigned rest
  | l => parseUnsigned l

/- ------------------------------------------------------------------ -/
/- Result Parser: predictions file and model-dump file                 -/
/- ------------------------------------------------------------------ -/

/-- Parsing of the `-out` predictions file in `FM.run`:
`[float(p) for p in out_read.split('\n') if p]`. -/
def parsePredictions (content : String) : Option (List ℚ) :=
  ((pySplit '\n' content).filter (fun p => p != "")).mapM parsePyFloat

/-- Accumulator of the model-dump parsing loop in `FM.run`
(`out_iter`, `global_bias`, `weights`, `pairwise_interactions`). -/
structure ModelAcc where
  out_iter : ℕ
  global_bias : Option ℚ
  weights : List ℚ
  pairwise_interactions : List (List ℚ)
deriving DecidableEq

/-- Initial accumulator: `out_iter = 0` (global-bias section), no bias,
empty weights and pairwise rows. -/
def initModelAcc : ModelAcc := ⟨0, none, [], []⟩

/-- One iteration of the model-dump loop body in `FM.run`: a line
starting with `#` updates `out_iter` when it contains one of the three
exact marker strings (and is otherwise ignored); any other line is data
routed by the current `out_iter`, where a failed float parse (`none`)
models the `ValueError` aborting the run. -/
def parseModelLine (acc : ModelAcc) (line : String) : Option ModelAcc :=
  if pyStartsWith line "#" then
    if pyContains line "#global bias W0" then some { acc with out_iter := 0 }
    else if pyContains line "#unary interactions Wj" then some { acc with out_iter := 1 }
    else if pyContains line "#pairwise interactions Vj,f" then some { acc with out_iter := 2 }
    else some acc
  else
    if acc.out_iter = 0 then
      (parsePyFloat line).map (fun v => { acc with global_bias := some v })
    else if acc.out_iter = 1 then
      (parsePyFloat line).map (fun v => { acc with weights := acc.weights ++ [v] })
    else
      ((pySplit ' ' line).mapM parsePyFloat).map
        (fun row => { acc with pairwise_interactions := acc.pairwise_interactions ++ [row] })

/-- The model-dump loop over a list of lines. -/
def parseModelLines (lines : List String) : Option ModelAcc :=
  lines.foldlM parseModelLine initModelAcc

/-- Parsing of the `-save_model` file in `FM.run`:
`f.read().splitlines()` then the section loop. -/
def parseModelFile (content : String) : Option ModelAcc :=
  parseModelLines (pySplitlines content)

/- ------------------------------------------------------------------ -/
/- FM constructor (`FM.__init__`)                                      -/
/- ------------------------------------------------------------------ -/

/-- The state stored by `FM.__init__`.  `task` is the single character
`task[0]`; `dim` is the rendered `"%d,%d,%d" % (int(k0), int(k1), k2)`
string; the three regularization values are kept as the triple the
source renders into its `"%f,%f,%f"` string; `verbose` is
`int(verbose)`. -/
structure FMState where
  task : Char
  num_iter : ℤ
  init_stdev : ℚ
  dim : String
  learning_method : String
  learn_rate : ℚ
  regularization : ℚ × ℚ × ℚ
  rlog : Bool
  verbose : ℤ
  silent : Bool
  temp_path : Option String
  libfm_path : String

/-- Exceptions `FM.__init__` can raise: `IndexError` from `task[0]` on
an empty string, and the `OSError` raised when `LIBFM_PATH` is unset. -/
inductive InitError where
  | indexError
  | osError
deriving DecidableEq

/-- File-system and process events performed by a call, used to track
the temp-file lifecycle: `mkstemp role` allocates the temp file of the
given role, `removeFile role` closes and deletes it, `subprocessCall`
launches the external binary. -/
inductive RunEvent where
  | mkstemp (role : String)
  | removeFile (role : String)
  | subprocessCall
deriving DecidableEq

/-- `FM.__init__`: evaluates `task[0]` first (line 90), then stores the
configuration, then checks `os.environ.get('LIBFM_PATH')` (lines
102-105).  The event list records the file and process I/O performed by
the constructor body: there is none. -/
def pyFMInit (task : String) (num_iter : ℤ) (init_stdev : ℚ) (k0 k1 : Bool) (k2 : ℤ)
    (learning_method : String) (learn_rate : ℚ) (r0 r1 r2 : ℚ)
    (rlog verbose silent : Bool) (temp_path : Option String)
    (env_LIBFM_PATH : Option String) : Except InitError FMState × List RunEvent :=
  match task.data with
  | [] => (.error .indexError, [])
  | c :: _ =>
    match env_LIBFM_PATH with
    | none => (.error .osError, [])
    | some p =>
      (.ok { task := c
             num_iter := num_iter
             init_stdev := init_stdev
             dim := (if k0 then "1" else "0") ++ "," ++ (if k1 then "1" else "0") ++ ","
               ++ toString k2
             learning_method := learning_method
             learn_rate := learn_rate
             regularization := (r0, r1, r2)
             rlog := rlog
             verbose := if verbose then 1 else 0
             silent := silent
             temp_path := temp_path
             libfm_path := p }, [])

/- ------------------------------------------------------------------ -/
/- Command Builder (`FM.run`, lines 152-186)                           -/
/- ------------------------------------------------------------------ -/

/-- One element of the `args` list built by `FM.run`.  Each constructor
keeps the payload the source interpolates into the flag string. -/
inductive Arg where
  | prog (path : String)
  | task (c : Char)
  | train (p : String)
  | test (p : String)
  | dim (d : String)
  | init_stdev (v : ℚ)
  | iter (n : ℤ)
  | method (m : String)
  | out (p : String)
  | verbosity (v : ℤ)
  | save_model (p : String)
  | rlog (p : String)
  | learn_rate (v : ℚ)
  | regular (r : ℚ × ℚ × ℚ)
  | validation (p : String)
  | silentRedirect
deriving DecidableEq

/-- The flag string an argument contributes to the command line (the
leading `libFM` program path and the `&> /dev/null` redirect carry no
flag). -/
def flagOf : Arg → String
  | .prog _ => ""
  | .task _ => "-task"
  | .train _ => "-train"
  | .test _ => "-test"
  | .dim _ => "-dim"
  | .init_stdev _ => "-init_stdev"
  | .iter _ => "-iter"
  | .method _ => "-method"
  | .out _ => "-out"
  | .verbosity _ => "-verbosity"
  | .save_model _ => "-save_model"
  | .rlog _ => "-rlog"
  | .learn_rate _ => "-learn_rate"
  | .regular _ => "-regular"
  | .validation _ => "-validation"
  | .silentRedirect => "&>"

/-- The argument list `FM.run` builds (lines 152-186): ten mandatory
flags, then `-rlog` if `self.__rlog`, `-learn_rate` for sgd and sgda,
`-regular` for sgd, sgda and als, `-validation` for sgda with both
validation arguments supplied, and the silencing redirect. -/
def buildArgs (st : FMState)
    (train_path test_path out_path model_path rlog_path validation_path : String)
    (x_validation_set y_validation_set : Option Unit) : List Arg :=
  [Arg.prog (st.libfm_path ++ "libFM"),
   Arg.task st.task,
   Arg.train train_path,
   Arg.test test_path,
   Arg.dim st.dim,
   Arg.init_stdev st.init_stdev,
   Arg.iter st.num_iter,
   Arg.method st.learning_method,
   Arg.out out_path,
   Arg.verbosity st.verbose,
   Arg.save_model model_path]
  ++ (if st.rlog then [Arg.rlog rlog_path] else [])
  ++ (if st.learning_method ∈ (["sgd", "sgda"] : List String) then
        [Arg.learn_rate st.learn_rate] else [])
  ++ (if st.learning_method ∈ (["sgd", "sgda", "als"] : List String) then
        [Arg.regular st.regularization] else [])
  ++ (if st.learning_method = "sgda" ∧ x_validation_set.isSome ∧ y_validation_set.isSome then
        [Arg.validation validation_path] else [])
  ++ (if st.silent then [Arg.silentRedirect] else [])

/-- Number of arguments carrying the given flag string. -/
def countFlag (args : List Arg) (flag : String) : ℕ :=
  (args.map flagOf).count flag

/- ------------------------------------------------------------------ -/
/- `FM.run` as a trace of temp-file events                             -/
/- ------------------------------------------------------------------ -/

/-- The environment a call of `FM.run` interacts with: whether each
`dump_svmlight_file` call succeeds, the exit code returned by
`call(args, shell=True)`, the contents the external binary left in the
`-out` and `-save_model` files, and whether `pd.read_csv` on the rlog
file succeeds. -/
structure RunWorld where
  dumpTrainOk : Bool
  dumpTestOk : Bool
  dumpValidationOk : Bool
  exitCode : ℤ
  outContent : String
  modelContent : String
  readCsvOk : Bool

/-- Exceptions a call of `FM.run` can raise: a failure inside
`dump_svmlight_file`, a `ValueError` from `float()` while parsing the
output or model file, and a failure inside `pd.read_csv`. -/
inductive RunError where
  | dumpError
  | valueError
  | readCsvError
deriving DecidableEq

/-- The namedtuple returned by `FM.run`.  The rlog dataframe contents
are owned by pandas; only its presence is modelled. -/
structure RunResultT where
  predictions : List ℚ
  global_bias : Option ℚ
  weights : List ℚ
  pairwise_interactions : List (List ℚ)
  rlogPresent : Bool
deriving DecidableEq

/-- Is an `Except` value a success? -/
def isOkE : Except ε α → Bool
  | .ok _ => true
  | .error _ => false

/-- The part of `FM.run` after `call(args, shell=True)` (lines
193-258): parse the predictions file, parse the model file, read the
rlog file if requested, then close and remove the temp files in source
order (rlog, validation, train, test, model, out).  `ev` is the event
trace accumulated so far; an exception (modelled by an `error` result)
returns with the trace at that point, performing no removals. -/
def pyRunAfterCall (st : FMState) (needValidation : Bool) (w : RunWorld)
    (ev : List RunEvent) : Except RunError RunResultT × List RunEvent :=
  match parsePredictions w.outContent with
  | none => (.error .valueError, ev)
  | some preds =>
    match parseModelFile w.modelContent with
    | none => (.error .valueError, ev)
    | some acc =>
      if st.rlog && !w.readCsvOk then (.error .readCsvError, ev)
      else
        (.ok { predictions := preds
               global_bias := acc.global_bias
               weights := acc.weights
               pairwise_interactions := acc.pairwise_interactions
               rlogPresent := st.rlog },
         ev ++ (if st.rlog then [RunEvent.removeFile "rlog"] else [])
            ++ (if needValidation then [RunEvent.removeFile "validation"] else [])
            ++ [RunEvent.removeFile "train", RunEvent.removeFile "test",
                RunEvent.removeFile "model", RunEvent.removeFile "out"])

/-- `FM.run`: allocate the four unconditional temp files (lines
143-146), materialize train and test (149-150), allocate the rlog temp
file if requested (166-168), allocate and materialize the validation
temp file for sgda with both validation arguments supplied (179-182),
launch the binary (191), then parse and clean up.  The second component
is the trace of temp-file and process events the call performed up to
its return, normal or exceptional. -/
def pyRun (st : FMState) (x_validation_set y_validation_set : Option Unit)
    (w : RunWorld) : Except RunError RunResultT × List RunEvent :=
  let ev := [RunEvent.mkstemp "train", RunEvent.mkstemp "test",
             RunEvent.mkstemp "out", RunEvent.mkstemp "model"]
  if !w.dumpTrainOk then (.error .dumpError, ev)
  else if !w.dumpTestOk then (.error .dumpError, ev)
  else
    let ev := ev ++ (if st.rlog then [RunEvent.mkstemp "rlog"] else [])
    let needValidation := st.learning_method == "sgda"
      && x_validation_set.isSome && y_validation_set.isSome
    let ev := ev ++ (if needValidation then [RunEvent.mkstemp "validation"] else [])
    if needValidation && !w.dumpValidationOk then (.error .dumpError, ev)
    else
      pyRunAfterCall st needValidation w (ev ++ [RunEvent.subprocessCall])

/- ------------------------------------------------------------------ -/
/- Spec-side definitions and test fixtures                             -/
/- ------------------------------------------------------------------ -/

/-- The model-dump line handler as claim C7 words it: a marker's text
identifies the section by containment of the fragments "global bias",
"unary interactions" and "pairwise interactions".  Spec-side definition,
written from the claim's words for comparison against the source's
`parseModelLine`. -/
def specFragmentModelLine (acc : ModelAcc) (line : String) : Option ModelAcc :=
  if pyStartsWith line "#" then
    if pyContains line "global bias" then some { acc with out_iter := 0 }
    else if pyContains line "unary interactions" then some { acc with out_iter := 1 }
    else if pyContains line "pairwise interactions" then some { acc with out_iter := 2 }
    else some acc
  else
    if acc.out_iter = 0 then
      (parsePyFloat line).map (fun v => { acc with global_bias := some v })
    else if acc.out_iter = 1 then
      (parsePyFloat line).map (fun v => { acc with weights := acc.weights ++ [v] })
    else
      ((pySplit ' ' line).mapM parsePyFloat).map
        (fun row => { acc with pairwise_interactions := acc.pairwise_interactions ++ [row] })

/-- The spec-side routing of claim C7 over a whole line list. -/
def specFragmentModelLines (lines : List String) : Option ModelAcc :=
  lines.foldlM specFragmentModelLine initModelAcc

/-- The section that is current after the parser consumes a `#` line
when `cur` was current before: containment of one of the three exact
marker strings selects the section, any other `#` line leaves the
section unchanged. -/
def markerRoute (cur : ℕ) (line : String) : ℕ :=
  if pyContains line "#global bias W0" then 0
  else if pyContains line "#unary interactions Wj" then 1
  else if pyContains line "#pairwise interactions Vj,f" then 2
  else cur

/-- A model-dump file assembled from an optional global-bias section
(marker plus one data line `b`), an optional unary section (marker plus
data lines `us`) and an optional pairwise section (marker plus data
lines `ps`), in the order libFM writes them. -/
def sectionDump (hasBias : Bool) (b : String) (hasUnary : Bool) (us : List String)
    (hasPair : Bool) (ps : List String) : List String :=
  (if hasBias then ["#global bias W0", b] else [])
  ++ (if hasUnary then "#unary interactions Wj" :: us else [])
  ++ (if hasPair then "#pairwise interactions Vj,f" :: ps else [])

/-- A sample constructed `FM` state (task regression, defaults of
`__init__`, `LIBFM_PATH=/usr/bin/`), used to instantiate theorems at
concrete inputs. -/
def sampleState : FMState :=
  { task := 'r'
    num_iter := 100
    init_stdev := mkRat 1 10
    dim := "1,1,8"
    learning_method := "mcmc"
    learn_rate := mkRat 1 10
    regularization := (0, 0, 0)
    rlog := true
    verbose := 0
    silent := false
    temp_path := none
    libfm_path := "/usr/bin/" }

/- ------------------------------------------------------------------ -/
/- Theorems                                                            -/
/- ------------------------------------------------------------------ -/

/-- C2: the model-dump parser is order-preserving and section-exclusive:
on the dump with marker "#global bias W0" followed by "5.0", marker
"#unary interactions Wj" followed by "1.0" and "2.0", and marker
"#pairwise interactions Vj,f" followed by "0.1 0.2" and "0.3 0.4",
parsing yields global bias 5, weights [1, 2] and pairwise rows
[[1/10, 2/10], [3/10, 4/10]]. -/
theorem c2_model_dump_sections :
    parseModelFile
      "#global bias W0\n5.0\n#unary interactions Wj\n1.0\n2.0\n#pairwise interactions Vj,f\n0.1 0.2\n0.3 0.4\n"
      = some ⟨2, some 5, [1, 2], [[mkRat 1 10, mkRat 2 10], [mkRat 3 10, mkRat 4 10]]⟩ := by
  decide

/-- C4: predictions parsing reads one float per non-empty line in file
order and skips empty lines, so the output-file content "1.5\n2.5\n\n"
parses to the predictions [3/2, 5/2]. -/
theorem c4_predictions_parse :
    parsePredictions "1.5\n2.5\n\n" = some [mkRat 3 2, mkRat 5 2] := by
  decide

/-- C7 counterexample: claim C7 identifies sections by containment of
the fragments "global bias" etc., but the source tests containment of
the full strings "#global bias W0", "#unary interactions Wj",
"#pairwise interactions Vj,f".  On the dump
["#unary interactions Wj", "1.0", "# global bias", "5.0"] the claim's
routing parses 5.0 into the global-bias field, while the source leaves
the section at unary (the line "# global bias" matches no full marker)
and appends 5.0 to the weights, leaving the global bias unset. -/
theorem c7_fragment_routing_false :
    parseModelLines ["#unary interactions Wj", "1.0", "# global bias", "5.0"]
        = some ⟨1, none, [1, 5], []⟩
    ∧ specFragmentModelLines ["#unary interactions Wj", "1.0", "# global bias", "5.0"]
        = some ⟨0, some 5, [1], []⟩ := by
  decide

/-- C7 (amended): a section boundary is a `#` line whose text contains
one of the full marker strings "#global bias W0",
"#unary interactions Wj", "#pairwise interactions Vj,f"; a `#` line
containing none of them is consumed without changing the section, and no
`#` line is ever treated as data. -/
theorem c7_marker_routing (acc : ModelAcc) (line : String)
    (h : pyStartsWith line "#" = true) :
    parseModelLine acc line = some { acc with out_iter := markerRoute acc.out_iter line } := by
  unfold parseModelLine markerRoute
  simp only [h]
  split_ifs <;> rfl

/-- Witness for `c7_marker_routing` at the unary marker line. -/
theorem c7_marker_routing_witness :
    parseModelLine initModelAcc "#unary interactions Wj"
      = some { initModelAcc with
               out_iter := markerRoute initModelAcc.out_iter "#unary interactions Wj" } :=
  c7_marker_routing initModelAcc "#unary interactions Wj" (by decide)

/-- C5: when the `LIBFM_PATH` environment variable is absent,
construction (with any non-empty task string and any other parameters)
raises the configuration `OSError`, and performs no file or process
I/O: the constructor's event trace is empty, so no temp file is created
and no subprocess is launched. -/
theorem c5_missing_env_fails_fast (c : Char) (cs : List Char) (num_iter : ℤ)
    (init_stdev : ℚ) (k0 k1 : Bool) (k2 : ℤ) (learning_method : String)
    (learn_rate r0 r1 r2 : ℚ) (rlog verbose silent : Bool) (temp_path : Option String) :
    pyFMInit (String.mk (c :: cs)) num_iter init_stdev k0 k1 k2 learning_method
      learn_rate r0 r1 r2 rlog verbose silent temp_path none
      = (.error .osError, []) := by
  rfl

/-- C10: constructing `FM` with the empty task string raises the
`IndexError` from `task[0]` before the environment check, whatever the
environment holds; and for any non-empty task string (with the
environment set) construction succeeds, storing exactly the first
character as the task discriminator. -/
theorem c10_task_first_char :
    (∀ (env : Option String) (num_iter : ℤ) (init_stdev : ℚ) (k0 k1 : Bool) (k2 : ℤ)
        (learning_method : String) (learn_rate r0 r1 r2 : ℚ) (rlog verbose silent : Bool)
        (temp_path : Option String),
      pyFMInit "" num_iter init_stdev k0 k1 k2 learning_method learn_rate r0 r1 r2
        rlog verbose silent temp_path env = (.error .indexError, []))
    ∧ (∀ (c : Char) (cs : List Char) (p : String) (num_iter : ℤ) (init_stdev : ℚ)
        (k0 k1 : Bool) (k2 : ℤ) (learning_method : String) (learn_rate r0 r1 r2 : ℚ)
        (rlog verbose silent : Bool) (temp_path : Option String),
      ∃ st, pyFMInit (String.mk (c :: cs)) num_iter init_stdev k0 k1 k2 learning_method
          learn_rate r0 r1 r2 rlog verbose silent temp_path (some p) = (.ok st, [])
        ∧ st.task = c) := by
  constructor
  · intro env _ _ _ _ _ _ _ _ _ _ _ _ _ _
    cases env <;> rfl
  · intro c cs p _ _ _ _ _ _ _ _ _ _ _ _ _ _
    exact ⟨_, rfl, rfl⟩

/-- C6: `FM.run` ignores the exit code of `call(args, shell=True)`: two
worlds differing only in the exit code produce identical results and
identical event traces, whatever the exit code is. -/
theorem c6_exit_code_ignored (st : FMState) (x_validation_set y_validation_set : Option Unit)
    (w : RunWorld) (ec : ℤ) :
    pyRun st x_validation_set y_validation_set { w with exitCode := ec }
      = pyRun st x_validation_set y_validation_set w := by
  rfl

/-- C1: for every configuration, the argument list built by `FM.run`
carries each of the ten mandatory flags exactly once, and the
conditional flags exactly when their predicate holds: `-learn_rate` for
learning methods sgd and sgda, `-regular` for sgd, sgda and als, and
`-rlog` exactly when the rlog flag is set. -/
theorem c1_flag_occurrences (st : FMState)
    (train_path test_path out_path model_path rlog_path validation_path : String)
    (x_validation_set y_validation_set : Option Unit) :
    countFlag (buildArgs st train_path test_path out_path model_path rlog_path
        validation_path x_validation_set y_validation_set) "-task" = 1
    ∧ countFlag (buildArgs st train_path test_path out_path model_path rlog_path
        validation_path x_validation_set y_validation_set) "-train" = 1
    ∧ countFlag (buildArgs st train_path test_path out_path model_path rlog_path
        validation_path x_validation_set y_validation_set) "-test" = 1
    ∧ countFlag (buildArgs st train_path test_path out_path model_path rlog_path
        validation_path x_validation_set y_validation_set) "-dim" = 1
    ∧ countFlag (buildArgs st train_path test_path out_path model_path rlog_path
        validation_path x_validation_set y_validation_set) "-init_stdev" = 1
    ∧ countFlag (buildArgs st train_path test_path out_path model_path rlog_path
        validation_path x_validation_set y_validation_set) "-iter" = 1
    ∧ countFlag (buildArgs st train_path test_path out_path model_path rlog_path
        validation_path x_validation_set y_validation_set) "-method" = 1
    ∧ countFlag (buildArgs st train_path test_path out_path model_path rlog_path
        validation_path x_validation_set y_validation_set) "-out" = 1
    ∧ countFlag (buildArgs st train_path test_path out_path model_path rlog_path
        validation_path x_validation_set y_validation_set) "-verbosity" = 1
    ∧ countFlag (buildArgs st train_path test_path out_path model_path rlog_path
        validation_path x_validation_set y_validation_set) "-save_model" = 1
    ∧ countFlag (buildArgs st train_path test_path out_path model_path rlog_path
        validation_path x_validation_set y_validation_set) "-learn_rate"
      = (if st.learning_method ∈ (["sgd", "sgda"] : List String) then 1 else 0)
    ∧ countFlag (buildArgs st train_path test_path out_path model_path rlog_path
        validation_path x_validation_set y_validation_set) "-regular"
      = (if st.learning_method ∈ (["sgd", "sgda", "als"] : List String) then 1 else 0)
    ∧ countFlag (buildArgs st train_path test_path out_path model_path rlog_path
        validation_path x_validation_set y_validation_set) "-rlog"
      = (if st.rlog then 1 else 0) := by
  unfold countFlag buildArgs
  split_ifs <;>
    · simp only [List.map_append, List.map_cons, List.map_nil, flagOf]
      decide

/-- C9: with learning method sgda, the built command carries the
`-validation` flag exactly when both the validation feature matrix and
the validation target vector are supplied; if either is absent no
validation flag is appended. -/
theorem c9_validation_flag (st : FMState)
    (train_path test_path out_path model_path rlog_path validation_path : String)
    (x_validation_set y_validation_set : Option Unit)
    (hm : st.learning_method = "sgda") :
    0 < countFlag (buildArgs st train_path test_path out_path model_path rlog_path
        validation_path x_validation_set y_validation_set) "-validation"
      ↔ (x_validation_set.isSome = true ∧ y_validation_set.isSome = true) := by
  unfold countFlag buildArgs
  rw [hm]
  cases x_validation_set <;> cases y_validation_set <;>
    · simp only [Option.isSome_some, Option.isSome_none, Bool.false_eq_true, false_and,
        and_false, and_true, true_and, and_self, if_true, if_false]
      split_ifs <;>
        · simp only [List.map_append, List.map_cons, List.map_nil, flagOf]
          decide

/-- Witness for `c9_validation_flag`: with method sgda and both
validation arguments supplied, the `-validation` flag is present. -/
theorem c9_validation_flag_witness :
    0 < countFlag (buildArgs { sampleState with learning_method := "sgda" }
        "tr" "te" "ou" "mo" "rl" "va" (some ()) (some ())) "-validation" :=
  (c9_validation_flag { sampleState with learning_method := "sgda" }
    "tr" "te" "ou" "mo" "rl" "va" (some ()) (some ()) rfl).mpr ⟨rfl, rfl⟩

/-- On a successful return, the post-call part of `run` appends exactly
the removal events for rlog (if requested), validation (if
materialized) and the four unconditional temp files. -/
lemma pyRunAfterCall_ok_trace (st : FMState) (nv : Bool) (w : RunWorld)
    (ev : List RunEvent) (h : isOkE (pyRunAfterCall st nv w ev).1 = true) :
    (pyRunAfterCall st nv w ev).2
      = ev ++ (if st.rlog then [RunEvent.removeFile "rlog"] else [])
          ++ (if nv then [RunEvent.removeFile "validation"] else [])
          ++ [RunEvent.removeFile "train", RunEvent.removeFile "test",
              RunEvent.removeFile "model", RunEvent.removeFile "out"] := by
  rcases hp : parsePredictions w.outContent with _ | preds <;>
    rcases hq : parseModelFile w.modelContent with _ | acc <;>
      simp only [pyRunAfterCall, hp, hq] at h ⊢ <;>
      (try split_ifs at h ⊢) <;>
      simp_all [isOkE, List.append_assoc]

/-- On a successful return, `run` performed exactly the allocation
events, the subprocess launch, and the matching removal events, in
source order. -/
lemma pyRun_ok_trace (st : FMState) (xv yv : Option Unit) (w : RunWorld)
    (h : isOkE (pyRun st xv yv w).1 = true) :
    (pyRun st xv yv w).2
      = [RunEvent.mkstemp "train", RunEvent.mkstemp "test",
         RunEvent.mkstemp "out", RunEvent.mkstemp "model"]
        ++ (if st.rlog then [RunEvent.mkstemp "rlog"] else [])
        ++ (if st.learning_method == "sgda" && xv.isSome && yv.isSome then
              [RunEvent.mkstemp "validation"] else [])
        ++ [RunEvent.subprocessCall]
        ++ (if st.rlog then [RunEvent.removeFile "rlog"] else [])
        ++ (if st.learning_method == "sgda" && xv.isSome && yv.isSome then
              [RunEvent.removeFile "validation"] else [])
        ++ [RunEvent.removeFile "train", RunEvent.removeFile "test",
            RunEvent.removeFile "model", RunEvent.removeFile "out"] := by
  cases hb1 : w.dumpTrainOk with
  | false => simp [pyRun, hb1, isOkE] at h
  | true =>
    cases hb2 : w.dumpTestOk with
    | false => simp [pyRun, hb1, hb2, isOkE] at h
    | true =>
      cases hb3 : (st.learning_method == "sgda" && xv.isSome && yv.isSome)
          && !w.dumpValidationOk with
      | true => simp [pyRun, hb1, hb2, hb3, isOkE] at h
      | false =>
        have hred : pyRun st xv yv w
            = pyRunAfterCall st (st.learning_method == "sgda" && xv.isSome && yv.isSome) w
              (([RunEvent.mkstemp "train", RunEvent.mkstemp "test",
                 RunEvent.mkstemp "out", RunEvent.mkstemp "model"]
                ++ (if st.rlog then [RunEvent.mkstemp "rlog"] else [])
                ++ (if st.learning_method == "sgda" && xv.isSome && yv.isSome then
                      [RunEvent.mkstemp "validation"] else []))
                ++ [RunEvent.subprocessCall]) := by
          simp [pyRun, hb1, hb2, hb3]
        rw [hred] at h ⊢
        exact pyRunAfterCall_ok_trace st _ w _ h

/-- C3 counterexample: on the path where the predictions file fails to
parse (content "abc"), `run` raises the `ValueError` after having
created the train temp file and never removes it, so a temp file
created by the call outlives the call. -/
theorem c3_leak_on_parse_failure :
    isOkE (pyRun sampleState none none
        ⟨true, true, true, 0, "abc", "", true⟩).1 = false
    ∧ RunEvent.mkstemp "train" ∈ (pyRun sampleState none none
        ⟨true, true, true, 0, "abc", "", true⟩).2
    ∧ RunEvent.removeFile "train" ∉ (pyRun sampleState none none
        ⟨true, true, true, 0, "abc", "", true⟩).2 := by
  decide

/-- C3 (amended): on every run that returns normally, each temp file
allocated during the call (train, test, output, model, and the
conditional rlog and validation files) is closed and deleted before the
call returns; on paths where materialization or parsing raises, the
files created up to that point are not removed. -/
theorem c3_cleanup_on_success (st : FMState) (xv yv : Option Unit) (w : RunWorld)
    (h : isOkE (pyRun st xv yv w).1 = true) (f : String)
    (hmk : RunEvent.mkstemp f ∈ (pyRun st xv yv w).2) :
    RunEvent.removeFile f ∈ (pyRun st xv yv w).2 := by
  rw [pyRun_ok_trace st xv yv w h] at hmk ⊢
  split_ifs at hmk ⊢ <;> simp_all [List.mem_append] <;> tauto

/-- Witness for `c3_cleanup_on_success`: a successful run removes the
train temp file it created. -/
theorem c3_cleanup_on_success_witness :
    RunEvent.removeFile "train" ∈ (pyRun sampleState none none
      ⟨true, true, true, 0, "1.0\n", "#global bias W0\n5.0\n", true⟩).2 :=
  c3_cleanup_on_success sampleState none none
    ⟨true, true, true, 0, "1.0\n", "#global bias W0\n5.0\n", true⟩
    (by decide) "train" (by decide)

/-- The global-bias marker line sets the section to 0. -/
lemma parseModelLine_marker_bias (acc : ModelAcc) :
    parseModelLine acc "#global bias W0" = some { acc with out_iter := 0 } := by
  have h1 : pyStartsWith "#global bias W0" "#" = true := by decide
  have h2 : pyContains "#global bias W0" "#global bias W0" = true := by decide
  simp [parseModelLine, h1, h2]

/-- The unary marker line sets the section to 1. -/
lemma parseModelLine_marker_unary (acc : ModelAcc) :
    parseModelLine acc "#unary interactions Wj" = some { acc with out_iter := 1 } := by
  have h1 : pyStartsWith "#unary interactions Wj" "#" = true := by decide
  have h2 : pyContains "#unary interactions Wj" "#global bias W0" = false := by decide
  have h3 : pyContains "#unary interactions Wj" "#unary interactions Wj" = true := by decide
  simp [parseModelLine, h1, h2, h3]

/-- The pairwise marker line sets the section to 2. -/
lemma parseModelLine_marker_pair (acc : ModelAcc) :
    parseModelLine acc "#pairwise interactions Vj,f"
      = some { acc with out_iter := 2 } := by
  have h1 : pyStartsWith "#pairwise interactions Vj,f" "#" = true := by decide
  have h2 : pyContains "#pairwise interactions Vj,f" "#global bias W0" = false := by decide
  have h3 : pyContains "#pairwise interactions Vj,f" "#unary interactions Wj" = false := by decide
  have h4 : pyContains "#pairwise interactions Vj,f" "#pairwise interactions Vj,f" = true := by
    decide
  simp [parseModelLine, h1, h2, h3, h4]

/-- A parsable data line in the global-bias section overwrites the bias
and leaves the other fields alone. -/
lemma parseModelLine_data_bias (acc : ModelAcc) (line : String) (v : ℚ)
    (hs : pyStartsWith line "#" = false) (hv : parsePyFloat line = some v)
    (h0 : acc.out_iter = 0) :
    parseModelLine acc line = some { acc with global_bias := some v } := by
  simp [parseModelLine, hs, h0, hv]

/-- A parsable data line in the unary section appends one weight and
leaves the other fields alone. -/
lemma parseModelLine_data_unary (acc : ModelAcc) (line : String) (v : ℚ)
    (hs : pyStartsWith line "#" = false) (hv : parsePyFloat line = some v)
    (h1 : acc.out_iter = 1) :
    parseModelLine acc line = some { acc with weights := acc.weights ++ [v] } := by
  simp [parseModelLine, hs, h1, hv]

/-- A parsable data line in the pairwise section appends one row and
leaves the other fields alone. -/
lemma parseModelLine_data_pair (acc : ModelAcc) (line : String) (row : List ℚ)
    (hs : pyStartsWith line "#" = false)
    (hv : (pySplit ' ' line).mapM parsePyFloat = some row)
    (h2 : acc.out_iter = 2) :
    parseModelLine acc line
      = some { acc with pairwise_interactions := acc.pairwise_interactions ++ [row] } := by
  unfold parseModelLine
  rw [hs, if_neg (by decide : ¬(false = true)), h2, if_neg (by decide : ¬(2 = 0)),
    if_neg (by decide : ¬(2 = 1)), hv]
  rfl

/-- Folding parsable data lines in the unary section succeeds and
touches only the weights. -/
lemma foldlM_unary_data (ls : List String) :
    ∀ acc : ModelAcc, acc.out_iter = 1 →
    ls.all (fun l => !pyStartsWith l "#" && (parsePyFloat l).isSome) = true →
    ∃ acc2, List.foldlM parseModelLine acc ls = some acc2 ∧ acc2.out_iter = 1 ∧
      acc2.global_bias = acc.global_bias ∧
      acc2.pairwise_interactions = acc.pairwise_interactions := by
  induction ls with
  | nil => exact fun acc h1 _ => ⟨acc, rfl, h1, rfl, rfl⟩
  | cons l ls ih =>
    intro acc h1 hall
    rw [List.all_cons, Bool.and_eq_true] at hall
    obtain ⟨hl, hrest⟩ := hall
    rw [Bool.and_eq_true] at hl
    have hs : pyStartsWith l "#" = false := by simpa using hl.1
    obtain ⟨v, hv⟩ := Option.isSome_iff_exists.mp hl.2
    rw [List.foldlM_cons, parseModelLine_data_unary acc l v hs hv h1]
    obtain ⟨acc2, hf, h2, hb, hp⟩ := ih { acc with weights := acc.weights ++ [v] } h1 hrest
    exact ⟨acc2, hf, h2, hb, hp⟩

/-- Folding parsable data lines in the pairwise section succeeds and
touches only the pairwise rows. -/
lemma foldlM_pair_data (ls : List String) :
    ∀ acc : ModelAcc, acc.out_iter = 2 →
    ls.all (fun l => !pyStartsWith l "#" && ((pySplit ' ' l).mapM parsePyFloat).isSome) = true →
    ∃ acc2, List.foldlM parseModelLine acc ls = some acc2 ∧ acc2.out_iter = 2 ∧
      acc2.global_bias = acc.global_bias ∧ acc2.weights = acc.weights := by
  induction ls with
  | nil => exact fun acc h2 _ => ⟨acc, rfl, h2, rfl, rfl⟩
  | cons l ls ih =>
    intro acc h2 hall
    rw [List.all_cons, Bool.and_eq_true] at hall
    obtain ⟨hl, hrest⟩ := hall
    rw [Bool.and_eq_true] at hl
    have hs : pyStartsWith l "#" = false := by simpa using hl.1
    obtain ⟨row, hv⟩ := Option.isSome_iff_exists.mp hl.2
    rw [List.foldlM_cons, parseModelLine_data_pair acc l row hs hv h2]
    obtain ⟨acc2, hf, h2i, hb, hw⟩ :=
      ih { acc with pairwise_interactions := acc.pairwise_interactions ++ [row] } h2 hrest
    exact ⟨acc2, hf, h2i, hb, hw⟩

/-- Processing the optional global-bias section succeeds and touches
only the bias. -/
lemma foldlM_bias_section (hasBias : Bool) (b : String) (acc : ModelAcc)
    (h0 : acc.out_iter = 0)
    (hb : hasBias = true → (!pyStartsWith b "#" && (parsePyFloat b).isSome) = true) :
    ∃ acc1, List.foldlM parseModelLine acc
        (if hasBias then ["#global bias W0", b] else []) = some acc1
      ∧ acc1.out_iter = 0 ∧ acc1.weights = acc.weights
      ∧ acc1.pairwise_interactions = acc.pairwise_interactions
      ∧ (hasBias = false → acc1.global_bias = acc.global_bias) := by
  cases hasBias with
  | false => exact ⟨acc, rfl, h0, rfl, rfl, fun _ => rfl⟩
  | true =>
    have hb' := hb rfl
    rw [Bool.and_eq_true] at hb'
    have hs : pyStartsWith b "#" = false := by simpa using hb'.1
    obtain ⟨v, hv⟩ := Option.isSome_iff_exists.mp hb'.2
    refine ⟨{ acc with out_iter := 0, global_bias := some v }, ?_, rfl, rfl, rfl,
      fun hf => nomatch hf⟩
    rw [if_pos rfl, List.foldlM_cons, parseModelLine_marker_bias acc]
    show List.foldlM parseModelLine { acc with out_iter := 0 } [b] = _
    rw [List.foldlM_cons, parseModelLine_data_bias { acc with out_iter := 0 } b v hs hv rfl]
    rfl

/-- Processing the optional unary section succeeds and touches only the
section variable and the weights. -/
lemma foldlM_unary_section (hasUnary : Bool) (us : List String) (acc : ModelAcc)
    (hu : us.all (fun l => !pyStartsWith l "#" && (parsePyFloat l).isSome) = true) :
    ∃ acc1, List.foldlM parseModelLine acc
        (if hasUnary then "#unary interactions Wj" :: us else []) = some acc1
      ∧ acc1.global_bias = acc.global_bias
      ∧ acc1.pairwise_interactions = acc.pairwise_interactions
      ∧ (hasUnary = false → acc1 = acc) := by
  cases hasUnary with
  | false => exact ⟨acc, rfl, rfl, rfl, fun _ => rfl⟩
  | true =>
    obtain ⟨acc2, hf, _, hbias, hpair⟩ :=
      foldlM_unary_data us { acc with out_iter := 1 } rfl hu
    refine ⟨acc2, ?_, hbias, hpair, fun hf => nomatch hf⟩
    rw [if_pos rfl, List.foldlM_cons, parseModelLine_marker_unary acc]
    exact hf

/-- Processing the optional pairwise section succeeds and touches only
the section variable and the pairwise rows. -/
lemma foldlM_pair_section (hasPair : Bool) (ps : List String) (acc : ModelAcc)
    (hp : ps.all (fun l => !pyStartsWith l "#"
      && ((pySplit ' ' l).mapM parsePyFloat).isSome) = true) :
    ∃ acc1, List.foldlM parseModelLine acc
        (if hasPair then "#pairwise interactions Vj,f" :: ps else []) = some acc1
      ∧ acc1.global_bias = acc.global_bias
      ∧ acc1.weights = acc.weights
      ∧ (hasPair = false → acc1 = acc) := by
  cases hasPair with
  | false => exact ⟨acc, rfl, rfl, rfl, fun _ => rfl⟩
  | true =>
    obtain ⟨acc2, hf, _, hbias, hw⟩ :=
      foldlM_pair_data ps { acc with out_iter := 2 } rfl hp
    refine ⟨acc2, ?_, hbias, hw, fun hf => nomatch hf⟩
    rw [if_pos rfl, List.foldlM_cons, parseModelLine_marker_pair acc]
    exact hf

/-- C8: parsing a model dump from which a section (marker and its data
lines) is absent raises no exception and leaves the corresponding
result field absent or empty: the global bias stays unset, the weights
stay empty, the pairwise rows stay empty.  Data lines of the sections
that are present must be parsable and must not start with `#`. -/
theorem c8_absent_section_fields (hasBias : Bool) (b : String) (hasUnary : Bool)
    (us : List String) (hasPair : Bool) (ps : List String)
    (hb : hasBias = true → (!pyStartsWith b "#" && (parsePyFloat b).isSome) = true)
    (hu : us.all (fun l => !pyStartsWith l "#" && (parsePyFloat l).isSome) = true)
    (hp : ps.all (fun l => !pyStartsWith l "#"
      && ((pySplit ' ' l).mapM parsePyFloat).isSome) = true) :
    ∃ acc, parseModelLines (sectionDump hasBias b hasUnary us hasPair ps) = some acc
      ∧ (hasBias = false → acc.global_bias = none)
      ∧ (hasUnary = false → acc.weights = [])
      ∧ (hasPair = false → acc.pairwise_interactions = []) := by
  obtain ⟨a1, hf1, h1iter, h1w, h1p, h1b⟩ := foldlM_bias_section hasBias b initModelAcc rfl hb
  obtain ⟨a2, hf2, h2b, h2p, h2id⟩ := foldlM_unary_section hasUnary us a1 hu
  obtain ⟨a3, hf3, h3b, h3w, h3id⟩ := foldlM_pair_section hasPair ps a2 hp
  refine ⟨a3, ?_, ?_, ?_, ?_⟩
  · unfold parseModelLines sectionDump
    rw [List.foldlM_append, List.foldlM_append, hf1]
    show (List.foldlM parseModelLine a1 _ >>= fun acc => List.foldlM parseModelLine acc _) = _
    rw [hf2]
    exact hf3
  · intro hbf
    rw [h3b, h2b]
    exact h1b hbf
  · intro huf
    rw [h3w, h2id huf, h1w]
    rfl
  · intro hpf
    rw [h3id hpf, h2p, h1p]
    rfl

/-- Witness for `c8_absent_section_fields`: a dump holding only the
unary section parses with the bias unset and the pairwise rows empty. -/
theorem c8_absent_section_fields_witness :
    ∃ acc, parseModelLines (sectionDump false "" true ["1.0"] false []) = some acc
      ∧ (false = false → acc.global_bias = none)
      ∧ (true = false → acc.weights = [])
      ∧ (false = false → acc.pairwise_interactions = []) :=
  c8_absent_section_fields false "" true ["1.0"] false []
    (fun h => nomatch h) (by decide) rfl

end PyWFM
